import Mathlib

/-!
Shallow embedding of `serve.py` (a local development HTTP file server) and
verification of its specification.

The embedding models, from the source:
  * the Python string primitives the script relies on (`startswith`,
    `endswith`, `in`, `str.split`, `str.isdigit`, `int(...)`,
    `os.path.basename`, percent-decoding, `posixpath.normpath`,
    `os.path.join`);
  * `EnhancedHTTPRequestHandler.end_headers` (CORS/security/cache headers);
  * `EnhancedHTTPRequestHandler.do_GET` (SPA fallback rewriting);
  * `EnhancedHTTPRequestHandler.log_message` (colored request logging);
  * `EnhancedHTTPRequestHandler.__init__` (MIME override registration);
  * the bind-error handling of `run_server`;
  * the argument parsing and port validation of `main`.

Machine strings are modelled as Lean `String`s, exceptions as `Option`/sum
results, and the filesystem as an oracle `String → Bool` for existence.
-/

namespace Serve

/-- Python `s.startswith(t)`: `t` is a prefix of `s` (character-level). -/
def pyStartsWith (s t : String) : Bool := decide (t.data <+: s.data)

/-- Python `s.endswith(t)`: `t` is a suffix of `s` (character-level). -/
def pyEndsWith (s t : String) : Bool := decide (t.data <:+ s.data)

/-- Python `c in s` for a single character `c`: membership in the string. -/
def pyContains (s : String) (c : Char) : Bool := decide (c ∈ s.data)

/-- Split a character list at every character satisfying `p`, keeping
empty fields; `acc` holds the current field in reverse. -/
def splitPredAux (p : Char → Bool) : List Char → List Char → List (List Char)
  | [], acc => [acc.reverse]
  | x :: xs, acc =>
      if p x then acc.reverse :: splitPredAux p xs [] else splitPredAux p xs (x :: acc)

/-- Python `s.split(c)` for a one-character separator: fields between
occurrences of `c`, empty fields kept. -/
def pySplitChar (s : String) (c : Char) : List String :=
  (splitPredAux (fun x => x = c) s.data []).map (fun l => ⟨l⟩)

/-- Python `s.split()` with no separator: split on whitespace runs,
dropping empty fields. -/
def pySplitWs (s : String) : List String :=
  ((splitPredAux Char.isWhitespace s.data []).map (fun l => (⟨l⟩ : String))).filter
    (fun t => t ≠ "")

/-- Join strings with `/` between them, as the join on a slash does. -/
def joinSlash : List String → String
  | [] => ""
  | [x] => x
  | x :: y :: rest => x ++ "/" ++ joinSlash (y :: rest)

/-- Python `s.strip()` on whitespace (used by `int(...)`). -/
def pyStrip (s : String) : String :=
  ⟨((s.data.dropWhile Char.isWhitespace).reverse.dropWhile Char.isWhitespace).reverse⟩

/-- Python `s.rstrip()` on whitespace (used by `translate_path`). -/
def pyRstrip (s : String) : String :=
  ⟨(s.data.reverse.dropWhile Char.isWhitespace).reverse⟩

/-- Python `s.isdigit()` restricted to ASCII digits: non-empty and all
digits.  (Unicode digit categories beyond ASCII are not modelled.) -/
def pyIsDigit (s : String) : Bool := s.data ≠ [] && s.data.all Char.isDigit

/-- Numeric value of a list of decimal digit characters. -/
def digitsVal (l : List Char) : Nat :=
  l.foldl (fun a c => a * 10 + (c.toNat - 48)) 0

/-- Python `int(s)` for decimal strings: optional surrounding whitespace,
optional sign, then decimal digits; `none` models `ValueError`.
(Underscore digit separators are not modelled.) -/
def pyInt (s : String) : Option Int :=
  match (pyStrip s).data with
  | [] => none
  | '-' :: rest =>
      if rest ≠ [] ∧ rest.all Char.isDigit then some (-(digitsVal rest : Int)) else none
  | '+' :: rest =>
      if rest ≠ [] ∧ rest.all Char.isDigit then some ((digitsVal rest : Int)) else none
  | l => if l.all Char.isDigit then some ((digitsVal l : Int)) else none

/-- Python `os.path.basename` on a POSIX path: the part after the last `/`. -/
def basename (p : String) : String := (pySplitChar p '/').getLastD ""

/-- Value of one hex digit, if it is one. -/
def hexVal (c : Char) : Option Nat :=
  if '0' ≤ c ∧ c ≤ '9' then some (c.toNat - 48)
  else if 'a' ≤ c ∧ c ≤ 'f' then some (c.toNat - 87)
  else if 'A' ≤ c ∧ c ≤ 'F' then some (c.toNat - 55)
  else none

/-- Character-level percent-decoding, the core of `urllib.parse.unquote`:
each `%XX` hex escape becomes the character with that code, other
characters pass through.  (Multi-byte UTF-8 sequences decode to one char
per byte here; the traversal-safety results quantify over all decoded
strings, so this simplification is harmless.) -/
def unquoteChars : List Char → List Char
  | [] => []
  | '%' :: a :: b :: rest =>
      match hexVal a, hexVal b with
      | some x, some y => Char.ofNat (16 * x + y) :: unquoteChars rest
      | _, _ => '%' :: unquoteChars (a :: b :: rest)
  | c :: rest => c :: unquoteChars rest

/-- Python `urllib.parse.unquote` on a path string. -/
def unquote (s : String) : String := ⟨unquoteChars s.data⟩

/-- One step of the component loop of `posixpath.normpath`; `acc` holds the
accumulated components in reverse (`acc.head?` plays the role of
`new_comps[-1]`). -/
def normStep (initialSlashes : Bool) (acc : List String) (comp : String) : List String :=
  if comp = "" ∨ comp = "." then acc
  else if comp ≠ ".." ∨ (¬ initialSlashes ∧ acc = []) ∨ (acc ≠ [] ∧ acc.headD "" = "..") then
    comp :: acc
  else
    match acc with
    | [] => []
    | _ :: t => t

/-- Python `posixpath.normpath`: collapse `.`, empty and resolvable `..`
components; keep the leading slash (doubled when the input starts with
exactly two slashes). -/
def normpath (p : String) : String :=
  if p = "" then "."
  else
    let initialSlashes := pyStartsWith p "/"
    let twoSlashes := pyStartsWith p "//" ∧ ¬ (pyStartsWith p "///" = true)
    let comps := pySplitChar p '/'
    let newComps := (comps.foldl (normStep initialSlashes) []).reverse
    let pref := if initialSlashes then (if twoSlashes then "//" else "/") else ""
    let joined := pref ++ joinSlash newComps
    if joined = "" then "." else joined

/-- Python `os.path.join(a, b)` for POSIX paths (two-argument case). -/
def pjoin (a b : String) : String :=
  if pyStartsWith b "/" then b
  else if a = "" ∨ pyEndsWith a "/" then a ++ b
  else a ++ "/" ++ b

/-- The guard of the `translate_path` loop on each path component: skip it unless it is
a plain file or directory name (`os.path.dirname(word)` non-empty, i.e. a
separator inside the word, or `word in (os.curdir, os.pardir)`). -/
def skippedWord (w : String) : Bool :=
  pyContains w '/' || w == "." || w == ".."

/-- Model of `SimpleHTTPRequestHandler.translate_path` (inherited by the handler;
the CPython `http.server` implementation): strip query and fragment, record
an explicit trailing slash, percent-decode, normalize, then join onto the
document root only those components that are plain names — components that
are empty, `.` , `..` or contain a separator are skipped. -/
def translate_path (root rawPath : String) : String :=
  let p := (pySplitChar rawPath '?').headD ""
  let p := (pySplitChar p '#').headD ""
  let trailingSlash := pyEndsWith (pyRstrip p) "/"
  let p := unquote p
  let p := normpath p
  let words := (pySplitChar p '/').filter (fun w => w ≠ "")
  let fsPath := words.foldl
    (fun acc w => if skippedWord w then acc else pjoin acc w) root
  if trailingSlash then fsPath ++ "/" else fsPath

/-! ## Header policy (`end_headers`, source lines 28–47) -/

/-- The static-asset suffix test of source line 42:
`self.path.endswith` applied to the tuple of suffixes `.css`, `.js`,
`.png`, `.jpg`, `.jpeg`, `.gif`, `.ico`, `.woff`, `.woff2`. -/
def staticAsset (p : String) : Bool :=
  pyEndsWith p ".css" || pyEndsWith p ".js" || pyEndsWith p ".png" ||
  pyEndsWith p ".jpg" || pyEndsWith p ".jpeg" || pyEndsWith p ".gif" ||
  pyEndsWith p ".ico" || pyEndsWith p ".woff" || pyEndsWith p ".woff2"

/-- The `Cache-Control` value chosen by `end_headers` (source lines 41–45):
long-lived caching for static assets, revalidation for `.html` and `/`,
absent otherwise. -/
def cacheControl (p : String) : Option String :=
  if staticAsset p then some "public, max-age=31536000"
  else if pyEndsWith p ".html" || p == "/" then some "no-cache, must-revalidate"
  else none

/-- The headers `end_headers` itself adds to every response (source lines
28–47): three CORS headers, four security headers, then the optional
`Cache-Control`, in source order. -/
def end_headers (p : String) : List (String × String) :=
  [("Access-Control-Allow-Origin", "*"),
   ("Access-Control-Allow-Methods", "GET, POST, OPTIONS"),
   ("Access-Control-Allow-Headers", "Content-Type, Authorization"),
   ("X-Content-Type-Options", "nosniff"),
   ("X-Frame-Options", "SAMEORIGIN"),
   ("X-XSS-Protection", "1; mode=block"),
   ("Referrer-Policy", "strict-origin-when-cross-origin")] ++
  (match cacheControl p with
   | some v => [("Cache-Control", v)]
   | none => [])

/-- The seven headers the spec calls mandatory. -/
def mandatoryHeaderNames : List String :=
  ["Access-Control-Allow-Origin", "Access-Control-Allow-Methods",
   "Access-Control-Allow-Headers", "X-Content-Type-Options",
   "X-Frame-Options", "X-XSS-Protection", "Referrer-Policy"]

/-! ## SPA fallback (`do_GET`, source lines 54–61) -/

/-- The SPA fallback condition of `do_GET` (source lines 57–58): the
translated filesystem path does not exist, the raw path is not under
`/assets/`, and the final path segment contains no dot.  `fs` is the
filesystem-existence oracle standing for `os.path.exists`. -/
def spaFallbackTriggers (fs : String → Bool) (root p : String) : Bool :=
  !fs (translate_path root p) && !pyStartsWith p "/assets/" &&
  !pyContains (basename p) '.'

/-- The effective request path after the SPA rewriting of `do_GET` (source
lines 57–59): `self.path` becomes `/index.html` when the fallback
condition holds, and is left unchanged otherwise. -/
def do_GET_path (fs : String → Bool) (root p : String) : String :=
  if spaFallbackTriggers fs root p then "/index.html" else p

/-! ## Request logger (`log_message`, source lines 63–83) -/

/-- Python `%`-formatting over `%s` and `%%` directives.  Faithful to the
`%` operator on string arguments: `none` models the `TypeError` raised
when the format has more directives than arguments ("not enough arguments
for format string") or fewer ("not all arguments converted during string
formatting"), as well as a trailing lone `%` (ValueError).  A directive
other than `%s`/`%%` is also `none`: on a string argument Python raises
for the numeric directives (percent-d and friends), the only other ones
in scope for this logger. -/
def pyFormatChars : List Char → List String → Option (List Char)
  | [], [] => some []
  | [], _ :: _ => none
  | '%' :: 's' :: rest, a :: as =>
      (pyFormatChars rest as).map (fun t => a.data ++ t)
  | '%' :: 's' :: _, [] => none
  | '%' :: '%' :: rest, as =>
      (pyFormatChars rest as).map (fun t => '%' :: t)
  | ['%'], _ => none
  | '%' :: _ :: _, _ => none
  | c :: rest, as => (pyFormatChars rest as).map (fun t => c :: t)

/-- Python `format % args` for the format strings the logger uses; `none`
models a formatting exception. -/
def pyFormat (fmt : String) (args : List String) : Option String :=
  (pyFormatChars fmt.data args).map (fun l => ⟨l⟩)

/-- The ANSI color `log_message` picks from the leading digit of the
status token (source lines 70–79). -/
def statusColor (status : String) : String :=
  if pyStartsWith status "2" then "\x1b[92m"
  else if pyStartsWith status "3" then "\x1b[32m"
  else if pyStartsWith status "4" then "\x1b[91m"
  else if pyStartsWith status "5" then "\x1b[31m"
  else "\x1b[32m"

/-- Model of `log_message` (source lines 63–83): the line written to the error
stream, or `none` where the Python raises.  With an empty argument tuple
the `status` expression evaluates `args[0]` and raises `IndexError`
(source line 67); with a first argument that splits to no tokens,
`args[0].split()[0]` raises `IndexError` (source line 66); and when
`format % args` raises (directive/argument mismatch), the write on source
line 83 never happens. -/
def log_message (timestamp fmt : String) (args : List String) : Option String :=
  match args with
  | [] => none
  | a :: _ =>
      match pySplitWs a with
      | [] => none
      | m :: rest =>
          let status := match rest with
            | [] => "200"
            | s :: _ => s
          match pyFormat fmt args with
          | none => none
          | some body =>
              some ("[" ++ timestamp ++ "] " ++ statusColor status ++ m ++ " " ++
                status ++ "\x1b[0m - " ++ body ++ "\n")

/-! ## Server runner bind errors (`run_server`, source lines 100–106) -/

/-- The address-in-use diagnostic (source line 102). -/
def inUseMsg (port : Nat) : String :=
  "ERROR: Port " ++ toString port ++ " is already in use. Try a different port."

/-- The generic bind-error diagnostic (source line 105). -/
def genericMsg (e : String) : String := "ERROR: Starting server: " ++ e

/-- Model of the `OSError` handling in `run_server` (source lines 100–106): the message
printed and the exit status, as a function of the `errno` of the error and
its string rendering.  Errno 48 is the value the source comment identifies
as "Address already in use". -/
def run_server_error (port errno : Nat) (e : String) : String × Nat :=
  if errno = 48 then (inUseMsg port, 1) else (genericMsg e, 1)

/-! ## CLI argument parsing (`main`, source lines 113–144) -/

/-- Mutable state of the parsing loop of `main`: the port and bind address,
initialised to `8000` and `"127.0.0.1"` (source lines 115–116). -/
structure CLIConfig where
  port : Int
  bind : String
deriving Repr, DecidableEq

/-- How `main` terminates before binding a listener, or proceeds. -/
inductive CLIOutcome where
  /-- Outcome where `run_server(port, bind)` is invoked: parsing and validation passed. -/
  | run (port : Int) (bind : String)
  /-- Outcome of `-h` or `--help`: usage text printed, `sys.exit(0)`. -/
  | helpExit
  /-- Outcome where `int(arg)` raised: "ERROR: Invalid port number", `sys.exit(1)`. -/
  | invalidPortExit (arg : String)
  /-- Range check failed: "ERROR: Port must be between 1 and 65535",
  `sys.exit(1)`. -/
  | rangeExit (port : Int)
deriving Repr, DecidableEq

/-- The loop of source lines 119–137 over `sys.argv[1:]`, with `i` the
current index into `argv` (starting at 1) as in the `enumerate` call.
Branch order follows the source: digit strings set the port; `-h`/`--help`
exits; `--bind` with a following token reads `sys.argv[i+1]` (without
skipping it); other non-`--` tokens go through `int(...)`; remaining
`--` tokens are ignored. -/
def argLoop (argv : List String) : List String → Nat → CLIConfig →
    Except CLIOutcome CLIConfig
  | [], _, cfg => .ok cfg
  | arg :: rest, i, cfg =>
      if pyIsDigit arg then
        argLoop argv rest (i + 1) { cfg with port := (digitsVal arg.data : Int) }
      else if arg = "-h" ∨ arg = "--help" then .error .helpExit
      else if arg = "--bind" ∧ i + 1 < argv.length then
        argLoop argv rest (i + 1) { cfg with bind := argv.getD (i + 1) "" }
      else if ¬ (pyStartsWith arg "--" = true) then
        match pyInt arg with
        | some n => argLoop argv rest (i + 1) { cfg with port := n }
        | none => .error (.invalidPortExit arg)
      else argLoop argv rest (i + 1) cfg

/-- Model of `main` up to the call of `run_server` (source lines 113–144): parse
`argv` (whose head is the program name), then validate
`1 <= port <= 65535`. -/
def main_parse (argv : List String) : CLIOutcome :=
  match argLoop argv (argv.drop 1) 1 { port := 8000, bind := "127.0.0.1" } with
  | .error o => o
  | .ok cfg =>
      if 1 ≤ cfg.port ∧ cfg.port ≤ 65535 then .run cfg.port cfg.bind
      else .rangeExit cfg.port

/-! ## MIME override registration (`__init__`, source lines 18–26) -/

/-- The MIME table: extension-to-type mapping, first match wins. -/
abbrev MimeTable := List (String × String)

/-- Python `mimetypes.add_type(type, ext)`: overwrite the entry for `ext`. -/
def add_type (tbl : MimeTable) (ty ext : String) : MimeTable :=
  (ext, ty) :: tbl.filter (fun q => q.1 ≠ ext)

/-- Process-level state the MIME registrations touch: the shared table and
a count of `add_type` invocations performed so far. -/
structure ProcState where
  table : MimeTable
  addTypeCalls : Nat
deriving Repr, DecidableEq

/-- One `mimetypes.add_type` call, counted. -/
def registerOverride (s : ProcState) (ty ext : String) : ProcState :=
  { table := add_type s.table ty ext, addTypeCalls := s.addTypeCalls + 1 }

/-- Model of `EnhancedHTTPRequestHandler.__init__` (source lines 18–26): the six
`add_type` calls, in source order, executed before the base constructor
processes the connection. -/
def handlerInit (s : ProcState) : ProcState :=
  registerOverride
    (registerOverride
      (registerOverride
        (registerOverride
          (registerOverride
            (registerOverride s "application/javascript" ".mjs")
            "text/css" ".css")
          "application/json" ".json")
        "image/webp" ".webp")
      "image/avif" ".avif")
    "font/woff2" ".woff2"

/-- Handling one accepted connection: `HTTPServer` constructs a fresh
`EnhancedHTTPRequestHandler`, running `__init__`; request processing
itself never touches the MIME table. -/
def handleConnection (s : ProcState) : ProcState := handlerInit s

/-- Process state after `run_server` has bound the listener but before any
connection arrives: no handler has been constructed yet, so no `add_type`
call has run. -/
def serverStart : ProcState := { table := [], addTypeCalls := 0 }

/-- Process state after serving `n` connections. -/
def serveN : Nat → ProcState
  | 0 => serverStart
  | n + 1 => handleConnection (serveN n)

/-! ## Helper lemmas -/

/-- Two suffixes of the same string are comparable. -/
theorem pyEndsWith_comparable {p a b : String} (ha : pyEndsWith p a = true)
    (hb : pyEndsWith p b = true) : a.data <:+ b.data ∨ b.data <:+ a.data :=
  List.suffix_or_suffix_of_suffix (of_decide_eq_true ha) (of_decide_eq_true hb)

/-- If `a` is a suffix of `p` and `b` is incomparable with `a`, then `b`
is not a suffix of `p`. -/
theorem pyEndsWith_excl {p : String} (a b : String) (h : pyEndsWith p a = true)
    (hab : ¬ (a.data <:+ b.data ∨ b.data <:+ a.data)) : pyEndsWith p b = false := by
  cases hb : pyEndsWith p b with
  | false => rfl
  | true => exact absurd (pyEndsWith_comparable h hb) hab

/-- A path ending in `.html` matches none of the static-asset suffixes. -/
theorem staticAsset_false_of_html {p : String} (h : pyEndsWith p ".html" = true) :
    staticAsset p = false := by
  unfold staticAsset
  rw [pyEndsWith_excl ".html" ".css" h (by decide),
    pyEndsWith_excl ".html" ".js" h (by decide),
    pyEndsWith_excl ".html" ".png" h (by decide),
    pyEndsWith_excl ".html" ".jpg" h (by decide),
    pyEndsWith_excl ".html" ".jpeg" h (by decide),
    pyEndsWith_excl ".html" ".gif" h (by decide),
    pyEndsWith_excl ".html" ".ico" h (by decide),
    pyEndsWith_excl ".html" ".woff" h (by decide),
    pyEndsWith_excl ".html" ".woff2" h (by decide)]
  rfl

/-! ## C1: SPA fallback condition -/

/-- C1.  For every GET request path, the SPA fallback rewrites the target
to `/index.html` exactly when the translated filesystem path does not
exist, the raw path does not start with `/assets/`, and the final path
segment contains no dot; paths under `/assets/` are never rewritten, so a
missing asset is served (and 404s) at its own path. -/
theorem spa_fallback_exact (fs : String → Bool) (root p : String) :
    ((do_GET_path fs root p = "/index.html" ∧ spaFallbackTriggers fs root p = true) ∨
      (do_GET_path fs root p = p ∧ spaFallbackTriggers fs root p = false)) ∧
    (spaFallbackTriggers fs root p = true ↔
      (fs (translate_path root p) = false ∧ pyStartsWith p "/assets/" = false ∧
        pyContains (basename p) '.' = false)) ∧
    (pyStartsWith p "/assets/" = true → do_GET_path fs root p = p) := by
  refine ⟨?_, ?_, ?_⟩
  · by_cases h : spaFallbackTriggers fs root p = true
    · exact Or.inl ⟨by simp [do_GET_path, h], h⟩
    · exact Or.inr ⟨by simp [do_GET_path, h], by simpa using h⟩
  · simp [spaFallbackTriggers, Bool.and_eq_true, Bool.not_eq_true', and_assoc]
  · intro h
    have : spaFallbackTriggers fs root p = false := by
      simp [spaFallbackTriggers, h]
    simp [do_GET_path, this]

/-! ## C2: the mandatory header set -/

/-- C2.  On every path — hence on every response the handler emits through
`end_headers`, whether for GET, OPTIONS, another method, or an error page —
the emitted header set contains each of the three CORS headers and four
security headers exactly once, contains at most one `Cache-Control`
header, and contains nothing else. -/
theorem end_headers_complete (p : String) :
    (∀ n ∈ mandatoryHeaderNames, ((end_headers p).map Prod.fst).count n = 1) ∧
    ((end_headers p).map Prod.fst).count "Cache-Control" ≤ 1 ∧
    (∀ n ∈ (end_headers p).map Prod.fst, n ∈ mandatoryHeaderNames ∨ n = "Cache-Control") := by
  cases h : cacheControl p <;>
    refine ⟨?_, ?_, ?_⟩ <;>
    simp [end_headers, h, mandatoryHeaderNames]

/-! ## C3: Cache-Control selection -/

/-- C3.  Header `Cache-Control` is `public, max-age=31536000` iff the path ends
in one of the nine static-asset extensions; it is
`no-cache, must-revalidate` iff the path ends in `.html` or is exactly
`/`; and it is absent in every other case. -/
theorem cacheControl_exact (p : String) :
    (cacheControl p = some "public, max-age=31536000" ↔ staticAsset p = true) ∧
    (cacheControl p = some "no-cache, must-revalidate" ↔
      (pyEndsWith p ".html" = true ∨ p = "/")) ∧
    (cacheControl p = none ↔
      (staticAsset p = false ∧ pyEndsWith p ".html" = false ∧ p ≠ "/")) := by
  by_cases hs : staticAsset p = true
  · have hh : pyEndsWith p ".html" = false := by
      cases h2 : pyEndsWith p ".html" with
      | false => rfl
      | true => rw [staticAsset_false_of_html h2] at hs; exact absurd hs (by simp)
    have hp : p ≠ "/" := by
      intro e; rw [e] at hs; exact absurd hs (by decide)
    simp [cacheControl, hs, hh, hp]
  · have hs' : staticAsset p = false := by simpa using hs
    by_cases hh : pyEndsWith p ".html" = true
    · simp [cacheControl, hs', hh]
    · have hh' : pyEndsWith p ".html" = false := by simpa using hh
      by_cases hp : p = "/"
      · subst hp
        simp [cacheControl, hs', hh']
      · simp [cacheControl, hs', hh', hp]

/-! ## C4: path-traversal containment -/

/-- A fold that skips the components `skippedWord` rejects equals the fold
over the filtered list. -/
theorem foldl_skip_eq_filter (f : String → String → String) :
    ∀ (l : List String) (acc : String),
      l.foldl (fun a w => if skippedWord w then a else f a w) acc =
        (l.filter (fun w => !skippedWord w)).foldl f acc := by
  intro l
  induction l with
  | nil => intro acc; rfl
  | cons w l ih =>
      intro acc
      cases hw : skippedWord w <;>
        simp [List.foldl_cons, List.filter_cons, hw, ih]

/-- A component without a separator never starts with one. -/
theorem not_slash_heads_of_no_slash {w : String} (h : pyContains w '/' = false) :
    pyStartsWith w "/" = false := by
  cases hsp : pyStartsWith w "/" with
  | false => rfl
  | true =>
      exfalso
      rcases of_decide_eq_true hsp with ⟨t, ht⟩
      have hm : ('/' : Char) ∈ w.data := by
        rw [← ht, show "/".data = ['/'] from rfl]
        exact List.mem_append_left _ (List.mem_singleton.mpr rfl)
      exact absurd hm (of_decide_eq_false h)

/-- Joining separator-free components onto a base only ever extends it:
the base stays a prefix of the result. -/
theorem foldl_pjoin_extends :
    ∀ (ws : List String) (acc : String),
      (∀ w ∈ ws, pyContains w '/' = false) →
      acc.data <+: (ws.foldl pjoin acc).data := by
  intro ws
  induction ws with
  | nil => intro acc _; exact List.prefix_refl _
  | cons w ws ih =>
      intro acc h
      have hw : pyContains w '/' = false := h w (List.mem_cons_self w ws)
      have hstep : acc.data <+: (pjoin acc w).data := by
        rw [pjoin, if_neg (by simp [not_slash_heads_of_no_slash hw])]
        by_cases he : acc = "" ∨ pyEndsWith acc "/" = true
        · rw [if_pos he, String.data_append]
          exact List.prefix_append _ _
        · rw [if_neg he, String.data_append, String.data_append]
          exact (List.prefix_append _ _).trans (List.prefix_append _ _)
      exact hstep.trans
        (ih (pjoin acc w) (fun x hx => h x (List.mem_cons_of_mem w hx)))

/-- C4.  For every raw request path — `..` segments and percent-encoded
traversal included — `translate_path` resolves to a path that stays
inside the document root: it is the root extended only by plain,
separator-free components none of which is `.` or `..` (plus an optional
trailing slash), and in particular the root is always a prefix of the
resolved path. -/
theorem translate_path_stays_in_root (root p : String) :
    ∃ ws : List String,
      (∀ w ∈ ws, w ≠ "" ∧ w ≠ "." ∧ w ≠ ".." ∧ pyContains w '/' = false) ∧
      (translate_path root p = ws.foldl pjoin root ∨
        translate_path root p = ws.foldl pjoin root ++ "/") ∧
      root.data <+: (translate_path root p).data := by
  have hshape : ∃ ws : List String,
      (∀ w ∈ ws, w ≠ "" ∧ skippedWord w = false) ∧
      (translate_path root p = ws.foldl pjoin root ∨
        translate_path root p = ws.foldl pjoin root ++ "/") := by
    simp only [translate_path]
    refine ⟨((pySplitChar (normpath (unquote ((pySplitChar
      ((pySplitChar p '?').headD "") '#').headD ""))) '/').filter
      (fun w => w ≠ "")).filter (fun w => !skippedWord w), ?_, ?_⟩
    · intro w hw
      have h1 := List.mem_filter.mp hw
      have h2 := List.mem_filter.mp h1.1
      exact ⟨by simpa using h2.2, by simpa using h1.2⟩
    · rw [foldl_skip_eq_filter]
      split
      · exact Or.inr rfl
      · exact Or.inl rfl
  obtain ⟨ws, hcomp, hshape⟩ := hshape
  have hdecomp : ∀ w ∈ ws, w ≠ "" ∧ w ≠ "." ∧ w ≠ ".." ∧
      pyContains w '/' = false := by
    intro w hw
    obtain ⟨hne, hsk⟩ := hcomp w hw
    rw [skippedWord] at hsk
    simp only [Bool.or_eq_false_iff, beq_eq_false_iff_ne] at hsk
    exact ⟨hne, hsk.1.2, hsk.2, hsk.1.1⟩
  have hpre : root.data <+: (ws.foldl pjoin root).data :=
    foldl_pjoin_extends ws root (fun w hw => (hdecomp w hw).2.2.2)
  refine ⟨ws, hdecomp, hshape, ?_⟩
  rcases hshape with h | h
  · rw [h]; exact hpre
  · rw [h, String.data_append]
    exact hpre.trans (List.prefix_append _ _)

/-! ## C5: logger robustness -/

/-- C5 counterexample.  Two inputs on which `log_message` raises instead
of writing a line: with an empty argument tuple, the status expression of
source line 67 evaluates `args[0]` unconditionally and raises
`IndexError`; and with a format string holding more `%s` directives than
arguments, `format % args` on source line 83 raises `TypeError` before
the write. -/
theorem log_message_raises_on_bad_input :
    log_message "2025-01-01 00:00:00" "%s" [] = none ∧
    log_message "2025-01-01 00:00:00" "%s %s" ["GET /x HTTP/1.1"] = none := by
  exact ⟨rfl, rfl⟩

/-- C5 (amended).  Whenever the argument tuple is non-empty, its first
entry is a string with at least one whitespace-separated token, and the
format string consumes the argument tuple exactly (so `format % args`
itself does not raise), the logger writes the formatted line; and
whenever the status token starts with none of `2`, `3`, `4`, `5`, the
default green color is used. -/
theorem log_message_writes_line (ts fmt a : String) (args : List String)
    (body : String) (h : pySplitWs a ≠ [])
    (hfmt : pyFormat fmt (a :: args) = some body) :
    (log_message ts fmt (a :: args)).isSome = true ∧
    (∀ s : String, pyStartsWith s "2" = false → pyStartsWith s "3" = false →
      pyStartsWith s "4" = false → pyStartsWith s "5" = false →
      statusColor s = "\x1b[32m") := by
  constructor
  · cases hsp : pySplitWs a with
    | nil => exact absurd hsp h
    | cons m rest => simp only [log_message]; rw [hsp, hfmt]; rfl
  · intro s h2 h3 h4 h5
    simp [statusColor, h2, h3, h4, h5]

/-- Witness for the amended C5 theorem at a concrete request line whose
format matches its single argument. -/
theorem log_message_writes_line_witness :
    (log_message "2025-01-01 00:00:00" "%s" ["GET /x HTTP/1.1"]).isSome = true :=
  (log_message_writes_line "2025-01-01 00:00:00" "%s" "GET /x HTTP/1.1" []
    "GET /x HTTP/1.1" (by decide) (by decide)).1

/-! ## C6: `--bind` value consumption -/

/-- C6.  The parsing loop does not skip the token following `--bind`: the
address is stored, but the same token is then re-examined as a positional
argument.  A dotted address fails `int(...)` and the process exits with
the invalid-port error — the help example printed by the source itself,
`python serve.py 3000 --bind 0.0.0.0` exits 1 — and an all-digit token is
additionally taken as the port. -/
theorem bind_value_reparsed_as_port :
    main_parse ["serve.py", "--bind", "0.0.0.0"] =
      CLIOutcome.invalidPortExit "0.0.0.0" ∧
    main_parse ["serve.py", "3000", "--bind", "0.0.0.0"] =
      CLIOutcome.invalidPortExit "0.0.0.0" ∧
    main_parse ["serve.py", "--bind", "9090"] = CLIOutcome.run 9090 "9090" := by
  refine ⟨by decide, by decide, by decide⟩

/-! ## C7: port validation -/

/-- C7.  A lone positional argument that is neither numeric nor a flag is
rejected with the invalid-port error before any listener is bound; the
ports `0` and `65536` are rejected by the range check; `1` and `65535`
are accepted and the server proceeds to bind. -/
theorem main_parse_port_validation :
    (∀ s : String, pyIsDigit s = false → pyInt s = none →
      pyStartsWith s "--" = false → s ≠ "-h" →
      main_parse ["serve.py", s] = CLIOutcome.invalidPortExit s) ∧
    main_parse ["serve.py", "0"] = CLIOutcome.rangeExit 0 ∧
    main_parse ["serve.py", "65536"] = CLIOutcome.rangeExit 65536 ∧
    main_parse ["serve.py", "1"] = CLIOutcome.run 1 "127.0.0.1" ∧
    main_parse ["serve.py", "65535"] = CLIOutcome.run 65535 "127.0.0.1" := by
  refine ⟨?_, by decide, by decide, by decide, by decide⟩
  intro s h1 h2 h3 h4
  have h5 : s ≠ "--help" := by
    intro e; subst e; exact absurd h3 (by decide)
  simp [main_parse, argLoop, h1, h2, h3, h4, h5]

/-- Witness for C7 at the non-numeric string `abc`. -/
theorem main_parse_port_validation_witness :
    main_parse ["serve.py", "abc"] = CLIOutcome.invalidPortExit "abc" :=
  main_parse_port_validation.1 "abc" (by decide) (by decide) (by decide) (by decide)

/-! ## C8: bind-error diagnostics -/

/-- C8.  A bind failure with the errno the source identifies as
address-in-use (48) produces the specific port-in-use diagnostic and exit
status 1; every other `OSError` produces the distinct generic diagnostic,
also with exit status 1. -/
theorem run_server_bind_error_distinction (port errno : Nat) (e : String)
    (h : errno ≠ 48) :
    run_server_error port 48 e = (inUseMsg port, 1) ∧
    run_server_error port errno e = (genericMsg e, 1) ∧
    inUseMsg port ≠ genericMsg e ∧
    (run_server_error port 48 e).2 ≠ 0 ∧
    (run_server_error port errno e).2 ≠ 0 := by
  refine ⟨by simp [run_server_error], by simp [run_server_error, h], ?_, ?_, ?_⟩
  · intro heq
    have hd : (inUseMsg port).data.take 8 = (genericMsg e).data.take 8 := by
      rw [heq]
    rw [inUseMsg, genericMsg] at hd
    rw [String.data_append, String.data_append, String.data_append] at hd
    rw [List.take_append_of_le_length (by simp),
      List.take_append_of_le_length (by decide),
      List.take_append_of_le_length (by decide)] at hd
    exact absurd hd (by decide)
  · simp [run_server_error]
  · simp [run_server_error, h]

/-- Witness for C8 at port 8000 and the permission-denied errno 13. -/
theorem run_server_bind_error_distinction_witness :
    run_server_error 8000 13 "[Errno 13] Permission denied" =
      (genericMsg "[Errno 13] Permission denied", 1) ∧
    run_server_error 8000 48 "[Errno 48] Address already in use" =
      (inUseMsg 8000, 1) :=
  ⟨(run_server_bind_error_distinction 8000 13 "[Errno 13] Permission denied"
      (by decide)).2.1,
   (run_server_bind_error_distinction 8000 13 "[Errno 48] Address already in use"
      (by decide)).1⟩

/-! ## C9: MIME registration frame effect -/

/-- The table produced by one handler construction, as a function of the
table it starts from. -/
theorem handlerInit_table (s : ProcState) :
    (handlerInit s).table =
      add_type (add_type (add_type (add_type (add_type (add_type s.table
        "application/javascript" ".mjs") "text/css" ".css") "application/json"
        ".json") "image/webp" ".webp") "image/avif" ".avif") "font/woff2"
        ".woff2" := rfl

/-- Each handler construction performs six `add_type` calls. -/
theorem handlerInit_calls (s : ProcState) :
    (handlerInit s).addTypeCalls = s.addTypeCalls + 6 := rfl

/-- C9 counterexample.  The override registrations do not happen once at
process start: at server start no `add_type` call has run (the handler
class has not been instantiated), and after two connections twelve calls
have run — each accepted connection re-registers the six overrides. -/
theorem mime_registration_not_once :
    (serveN 0).addTypeCalls = 0 ∧
    (serveN 1).addTypeCalls = 6 ∧
    (serveN 2).addTypeCalls = 12 := by decide

/-- C9 (amended).  The six override registrations run in the handler
constructor, once per accepted connection rather than once at process
start; the re-registrations are idempotent, so the table never changes
after the first connection, and nothing else mutates it. -/
theorem mime_registration_per_connection_idempotent (n : Nat) :
    (serveN (n + 1)).table = (serveN 1).table ∧
    (serveN n).addTypeCalls = 6 * n := by
  induction n with
  | zero => exact ⟨rfl, rfl⟩
  | succ k ih =>
      refine ⟨?_, ?_⟩
      · show (handlerInit (serveN (k + 1))).table = _
        rw [handlerInit_table, ih.1]
        decide
      · show (handlerInit (serveN k)).addTypeCalls = _
        rw [handlerInit_calls, ih.2]
        ring

/-! ## C10: repeated numeric arguments -/

/-- Over a run of all-digit tokens the loop overwrites the port with each
value of each token in turn and reports no error. -/
theorem argLoop_all_digits (argv : List String) :
    ∀ (ts : List String) (i : Nat) (cfg : CLIConfig),
      (∀ x ∈ ts, pyIsDigit x = true) →
      argLoop argv ts i cfg =
        .ok { port := ts.foldl (fun _ t => (digitsVal t.data : Int)) cfg.port,
              bind := cfg.bind } := by
  intro ts
  induction ts with
  | nil => intro i cfg _; rfl
  | cons t ts ih =>
      intro i cfg h
      have ht : pyIsDigit t = true := h t (List.mem_cons_self t ts)
      have hts : ∀ x ∈ ts, pyIsDigit x = true := fun x hx =>
        h x (List.mem_cons_of_mem t hx)
      simp only [argLoop, ht, if_true, List.foldl_cons]
      exact ih (i + 1) { cfg with port := (digitsVal t.data : Int) } hts

/-- C10.  When every argument after the program name is a bare numeric
token, each one is assigned to the port in order with no duplicate-
argument error; the value of the last token is the port actually used — it is
validated against the 1–65535 range and passed to `run_server` when in
range. -/
theorem main_parse_last_numeric_wins (prog : String) (pre : List String)
    (t : String) (hall : ∀ x ∈ pre ++ [t], pyIsDigit x = true) :
    main_parse (prog :: (pre ++ [t])) =
      if 1 ≤ (digitsVal t.data : Int) ∧ (digitsVal t.data : Int) ≤ 65535
      then CLIOutcome.run (digitsVal t.data) "127.0.0.1"
      else CLIOutcome.rangeExit (digitsVal t.data) := by
  have hloop := argLoop_all_digits (prog :: (pre ++ [t])) (pre ++ [t]) 1
    { port := 8000, bind := "127.0.0.1" } hall
  have hfold : (pre ++ [t]).foldl (fun _ u => (digitsVal u.data : Int)) 8000 =
      (digitsVal t.data : Int) := by
    rw [List.foldl_append]
    rfl
  simp only [main_parse, List.drop_succ_cons, List.drop_zero, hloop, hfold]

/-- Witness for C10: of the two port arguments `3000` and `8080`, the
last one wins silently. -/
theorem main_parse_last_numeric_wins_witness :
    main_parse ["serve.py", "3000", "8080"] = CLIOutcome.run 8080 "127.0.0.1" :=
  (main_parse_last_numeric_wins "serve.py" ["3000"] "8080" (by decide)).trans
    (by decide)

/-! ## Witnesses instantiating the universally quantified results -/

/-- Witness for C1: a missing extensionless route is rewritten to
`/index.html`, and a missing file under `/assets/` is not. -/
theorem spa_fallback_exact_witness :
    do_GET_path (fun _ => false) "/srv" "/dashboard" = "/index.html" ∧
    do_GET_path (fun _ => false) "/srv" "/assets/app.js" = "/assets/app.js" := by
  refine ⟨?_, (spa_fallback_exact (fun _ => false) "/srv" "/assets/app.js").2.2
    (by decide)⟩
  rcases (spa_fallback_exact (fun _ => false) "/srv" "/dashboard").1 with
    ⟨he, _⟩ | ⟨_, ht⟩
  · exact he
  · exact absurd ht (by decide)

/-- Witness for C2 on a concrete asset path. -/
theorem end_headers_complete_witness :
    ((end_headers "/app.css").map Prod.fst).count "Access-Control-Allow-Origin" = 1 ∧
    ((end_headers "/app.css").map Prod.fst).count "Cache-Control" ≤ 1 :=
  ⟨(end_headers_complete "/app.css").1 "Access-Control-Allow-Origin" (by decide),
   (end_headers_complete "/app.css").2.1⟩

/-- Witness for C3 on a concrete asset path. -/
theorem cacheControl_exact_witness :
    cacheControl "/logo.png" = some "public, max-age=31536000" :=
  (cacheControl_exact "/logo.png").1.mpr (by decide)

/-- Witness for C4 on a concrete traversal attempt. -/
theorem translate_path_stays_in_root_witness :
    "/srv".data <+: (translate_path "/srv" "/../../etc/passwd").data := by
  obtain ⟨ws, -, -, hpre⟩ := translate_path_stays_in_root "/srv" "/../../etc/passwd"
  exact hpre

/-- Witness for the amended C9 theorem after two connections. -/
theorem mime_registration_idempotent_witness :
    (serveN 2).table = (serveN 1).table ∧ (serveN 2).addTypeCalls = 6 * 2 :=
  ⟨(mime_registration_per_connection_idempotent 1).1,
   (mime_registration_per_connection_idempotent 2).2⟩

end Serve


